import Mathlib

/-!
Verification of the orbitr backend core against its specification.

The embedding models the Python source shallowly:
* floats are exact rationals (`ℚ`); Python's `round(x, 2)` is modelled as
  round-half-to-even at two decimal places on rationals;
* Python dicts of heterogeneous values are association lists over `PyVal`;
* code that can raise returns `Except String`;
* wall-clock timestamps are passed in as explicit parameters.
-/

set_option linter.unusedVariables false

namespace Orbitr

/-- A Python value as it appears in payload dicts and audit-log entries. -/
inductive PyVal where
  | str : String → PyVal
  | int : Int → PyVal
  | rat : ℚ → PyVal
  | bool : Bool → PyVal
  | none : PyVal
  | strlist : List String → PyVal
deriving DecidableEq, Repr

/-- Rendering of a Python value inside an f-string. -/
def pvStr : PyVal → String
  | .str s => s
  | .int n => toString n
  | .rat q => toString q
  | .bool b => if b then "True" else "False"
  | .none => "None"
  | .strlist l => String.intercalate ", " l

/-- Python `dict.get(k, d)` on an association list. -/
def pyGet (p : List (String × PyVal)) (k : String) (d : PyVal) : PyVal :=
  (p.lookup k).getD d

/-- Round-half-to-even to the nearest integer, the tie rule used by Python's
`round`. -/
def roundHalfEven (q : ℚ) : ℤ :=
  let f := ⌊q⌋
  let r := q - (f : ℚ)
  if r < 1/2 then f
  else if 1/2 < r then f + 1
  else if f % 2 = 0 then f else f + 1

/-- Python `round(q, 2)`: round to two decimal places, ties to even. -/
def pyRound2 (q : ℚ) : ℚ := ((roundHalfEven (q * 100) : ℚ)) / 100

/-- A finding dict as produced by the expert checkers.  Each key is optional:
the audit and insight code reads them with `dict.get` defaults
(`severity` ↦ "Low", `confidence` ↦ 0.5). -/
structure Finding where
  severity : Option String := Option.none
  confidence : Option ℚ := Option.none
  title : Option String := Option.none
  description : Option String := Option.none
deriving DecidableEq, Repr

/-! ### Audit coordinator (src/agents/audit.py, lines 35-53)

`severity_weights = {"Critical": 1.0, "High": 0.8, "Medium": 0.5, "Low": 0.2}`,
weight looked up with default `0.2`, confidence with default `0.5`;
`total_risk = max(total_risk, weight * confidence)` over the findings,
then `total_risk = round(min(1.0, total_risk), 2)`.  The highest-severity
tracking calls `severity_order.index(sev)`, which raises `ValueError` when
`sev` is not one of the four listed severities. -/

/-- The audit coordinator's severity weight table (a dict lookup). -/
def severity_weights (s : String) : Option ℚ :=
  if s = "Critical" then some 1
  else if s = "High" then some (4/5)
  else if s = "Medium" then some (1/2)
  else if s = "Low" then some (1/5)
  else Option.none

/-- `severity_order = ["Low", "Medium", "High", "Critical"]`. -/
def severity_order : List String := ["Low", "Medium", "High", "Critical"]

/-- Python `list.index`: index of the first occurrence, `ValueError` when the
element is absent. -/
def pyIndex : List String → String → Except String Nat
  | [], x => .error ("ValueError: " ++ x ++ " is not in list")
  | a :: as, x => if a = x then .ok 0 else (pyIndex as x).map (· + 1)

/-- The `for f in findings` loop of `audit_coordinator_agent`, carrying the
running maximum risk and the running highest severity.  The weight is taken
before the `severity_order.index` calls, exactly as in the source. -/
def auditRiskLoop : List Finding → ℚ → String → Except String (ℚ × String)
  | [], total, hs => .ok (total, hs)
  | f :: fs, total, hs =>
    let sev := f.severity.getD "Low"
    let conf := f.confidence.getD (1/2)
    let weight := (severity_weights sev).getD (1/5)
    let total2 := max total (weight * conf)
    match pyIndex severity_order sev with
    | .error e => .error e
    | .ok i =>
      match pyIndex severity_order hs with
      | .error e => .error e
      | .ok j => auditRiskLoop fs total2 (if j < i then sev else hs)

/-- Risk and highest severity computed by `audit_coordinator_agent`
(the `if findings:` guard in the source is equivalent to running the loop on
the empty list, which leaves `total_risk = 0.0` and `highest_severity =
"Low"` untouched).  The returned risk is `round(min(1.0, total_risk), 2)`. -/
def audit_coordinator_risk (findings : List Finding) : Except String (ℚ × String) :=
  (auditRiskLoop findings 0 "Low").map (fun p => (pyRound2 (min 1 p.1), p.2))

/-- The per-finding risk term `severity_weight[severity] * confidence` used by
the audit coordinator. -/
def findingRisk (f : Finding) : ℚ :=
  ((severity_weights (f.severity.getD "Low")).getD (1/5)) * (f.confidence.getD (1/2))

/-- Modelled from the spec: `max(severity_weight[f.severity] * f.confidence
for f in findings)` (or `0.0` if `findings` is empty).  The spec-side
aggregate, to be compared with `audit_coordinator_risk`. -/
def specMaxRisk (findings : List Finding) : ℚ :=
  (findings.map findingRisk).foldr max 0

/-! ### Workflow state machine (src/services/workflow.py)

The database fetch/persist are collaborators; the embedding works on the
fetched record directly.  Timestamps (`datetime.utcnow().timestamp()`) are
passed in as a `now : Nat` parameter. -/

/-- `WorkflowStatus` enum. -/
inductive WorkflowStatus where
  | pending
  | in_progress
  | awaiting_approval
  | approved
  | rejected
  | completed
  | escalated
  | expired
deriving DecidableEq, Repr

/-- One step dict of a workflow template.  `completed_at` / `completed_by`
are the keys added when the step is stamped complete. -/
structure WorkflowStep where
  name : String
  required_action : String
  auto : Bool
  condition : Option String := Option.none
  completed_at : Option Nat := Option.none
  completed_by : Option String := Option.none
deriving DecidableEq, Repr

/-- A workflow template: ordered step list plus timeout/escalation hours. -/
structure WorkflowTemplate where
  steps : List WorkflowStep
  timeout_hours : Nat
  escalation_hours : Nat
deriving DecidableEq, Repr

/-- Steps of the `change_approval` template. -/
def change_approval_steps : List WorkflowStep :=
  [ { name := "request_submitted", required_action := "submit", auto := true },
    { name := "risk_assessment", required_action := "assess", auto := true },
    { name := "manager_approval", required_action := "approve", auto := false },
    { name := "cab_review", required_action := "review", auto := false,
      condition := some "high_risk" },
    { name := "implementation", required_action := "implement", auto := true },
    { name := "verification", required_action := "verify", auto := true } ]

/-- Steps of the `access_review` template. -/
def access_review_steps : List WorkflowStep :=
  [ { name := "access_requested", required_action := "request", auto := true },
    { name := "identity_verification", required_action := "verify", auto := true },
    { name := "manager_approval", required_action := "approve", auto := false },
    { name := "security_review", required_action := "review", auto := false,
      condition := some "privileged" },
    { name := "access_granted", required_action := "grant", auto := true } ]

/-- Steps of the `incident_response` template. -/
def incident_response_steps : List WorkflowStep :=
  [ { name := "incident_detected", required_action := "detect", auto := true },
    { name := "triage", required_action := "triage", auto := true },
    { name := "investigation", required_action := "investigate", auto := false },
    { name := "containment", required_action := "contain", auto := false },
    { name := "remediation", required_action := "remediate", auto := false },
    { name := "post_mortem", required_action := "review", auto := false } ]

/-- `WORKFLOW_TEMPLATES`: the fixed template table. -/
def WORKFLOW_TEMPLATES (t : String) : Option WorkflowTemplate :=
  if t = "change_approval" then
    some { steps := change_approval_steps, timeout_hours := 72, escalation_hours := 24 }
  else if t = "access_review" then
    some { steps := access_review_steps, timeout_hours := 48, escalation_hours := 12 }
  else if t = "incident_response" then
    some { steps := incident_response_steps, timeout_hours := 168, escalation_hours := 4 }
  else Option.none

/-- A persisted workflow record (the `WorkflowRecord` row / the
`ComplianceWorkflow` dataclass). -/
structure WorkflowRecord where
  workflow_id : String
  workflow_type : String
  correlation_id : String
  status : WorkflowStatus
  created_at : Nat
  updated_at : Nat
  requester_id : Option String := Option.none
  approver_id : Option String := Option.none
  current_step : Nat := 0
  steps : List WorkflowStep := []
  metadata : List (String × PyVal) := []
deriving DecidableEq, Repr

/-- `WorkflowStateMachine.create_workflow`: validate the type against the
template table (unknown type raises `ValueError`), snapshot the template's
steps, return a new record at step 0 / status pending. -/
def create_workflow (workflow_type correlation_id : String) (requester_id : Option String)
    (metadata : Option (List (String × PyVal))) (now : Nat) (workflow_id : String) :
    Except String WorkflowRecord :=
  match WORKFLOW_TEMPLATES workflow_type with
  | Option.none => .error ("ValueError: Unknown workflow type: " ++ workflow_type)
  | some template => .ok
      { workflow_id := workflow_id
        workflow_type := workflow_type
        correlation_id := correlation_id
        status := WorkflowStatus.pending
        created_at := now
        updated_at := now
        requester_id := requester_id
        current_step := 0
        steps := template.steps
        metadata := metadata.getD [] }

/-- `WorkflowStateMachine.advance_workflow` on the fetched record.  Mirrors
the source: `steps[record.current_step]` is read before any other check, so
an out-of-range `current_step` (a completed workflow) raises `IndexError`;
a mismatched action returns the record unchanged; on match the current step
is stamped, the index incremented and the status recomputed from the next
step's `auto` flag.  `record.approver_id = actor_id` is guarded by Python
truthiness (`if actor_id:`), so `None` and `""` leave it unchanged. -/
def advance_workflow (record : WorkflowRecord) (action : String)
    (actor_id : Option String) (now : Nat) : Except String WorkflowRecord :=
  match record.steps.get? record.current_step with
  | Option.none => .error "IndexError: list index out of range"
  | some cur =>
    if cur.required_action ≠ action then
      .ok record
    else
      let steps := record.steps.set record.current_step
        { cur with completed_at := some now, completed_by := actor_id }
      let new_step := record.current_step + 1
      let new_status :=
        if new_step ≥ steps.length then
          WorkflowStatus.completed
        else
          match steps.get? new_step with
          | some next_step =>
            if next_step.auto then WorkflowStatus.in_progress
            else WorkflowStatus.awaiting_approval
          | Option.none => WorkflowStatus.awaiting_approval
      .ok { record with
            current_step := new_step
            updated_at := now
            status := new_status
            steps := steps
            approver_id :=
              match actor_id with
              | some a => if a = "" then record.approver_id else some a
              | Option.none => record.approver_id }

/-- Repeated calls of `advance_workflow` with the same action and actor. -/
def advance_repeat : Nat → WorkflowRecord → String → Option String → Nat →
    Except String WorkflowRecord
  | 0, r, _, _, _ => .ok r
  | n + 1, r, action, actor, now =>
    (advance_workflow r action actor now).bind
      (fun r2 => advance_repeat n r2 action actor now)

/-! ### Pipeline state and merge rules (src/models/state.py)

`WorkflowState` is a LangGraph state whose channels carry per-field
reducers; a node returns a partial update dict and each present key is
merged into the channel with its reducer.  `StateUpdate` models the partial
update (`Option.none` = key absent); for the `keep_first` channels the
carried value is itself optional, since Python code writes literal `None`
into them. -/

/-- The normalized event, as read by the agents (`severity`/`domain` hold
the enum's string value). -/
structure Event where
  event_type : String
  source_system : String
  severity : String
  domain : String
  payload : List (String × PyVal)
deriving DecidableEq, Repr

/-- One audit-log entry: a Python dict. -/
abbrev AuditEntry := List (String × PyVal)

/-- `keep_first(left, right)`: left unless left is None. -/
def keep_first (l r : Option α) : Option α :=
  if l.isSome then l else r

/-- Python `x or 0` for a float `x`: `0` when `x` is falsy (i.e. `0.0`). -/
def pyOrZero (x : ℚ) : ℚ := if x = 0 then 0 else x

/-- `take_max(left, right) = max(left or 0, right or 0)`. -/
def take_max (l r : ℚ) : ℚ := max (pyOrZero l) (pyOrZero r)

/-- `merge_lists(left, right) = (left or []) + (right or [])`. -/
def merge_lists (l r : List α) : List α :=
  (if l.isEmpty then [] else l) ++ (if r.isEmpty then [] else r)

/-- `merge_dicts(left, right) = {**left, **right}`: left's keys in order with
right's value when overridden, then right's new keys. -/
def merge_dicts (l r : List (String × PyVal)) : List (String × PyVal) :=
  (l.map (fun kv => (kv.1, (r.lookup kv.1).getD kv.2)))
    ++ r.filter (fun kv => (l.lookup kv.1).isNone)

/-- The pipeline state: one field per channel of `WorkflowState`. -/
structure WorkflowState where
  event : Option Event := Option.none
  findings : List Finding := []
  total_risk_score : ℚ := 0
  highest_severity : Option String := Option.none
  summary : Option String := Option.none
  root_cause : Option String := Option.none
  recommended_actions : List String := []
  agents_to_run : List String := []
  agents_completed : List String := []
  audit_log : List AuditEntry := []
  start_time : Option ℚ := Option.none
  context : List (String × PyVal) := []
deriving DecidableEq, Repr

/-- A partial update returned by a node (`Option.none` = key absent). -/
structure StateUpdate where
  event : Option (Option Event) := Option.none
  findings : Option (List Finding) := Option.none
  total_risk_score : Option ℚ := Option.none
  highest_severity : Option (Option String) := Option.none
  summary : Option (Option String) := Option.none
  root_cause : Option (Option String) := Option.none
  recommended_actions : Option (List String) := Option.none
  agents_to_run : Option (List String) := Option.none
  agents_completed : Option (List String) := Option.none
  audit_log : Option (List AuditEntry) := Option.none
  start_time : Option ℚ := Option.none
  context : Option (List (String × PyVal)) := Option.none
deriving DecidableEq, Repr

/-- Merge a partial update into the state, channel by channel, with the
reducers declared in `WorkflowState`'s `Annotated` types. -/
def mergeState (s : WorkflowState) (u : StateUpdate) : WorkflowState :=
  { event := match u.event with
      | some v => keep_first s.event v
      | Option.none => s.event
    findings := match u.findings with
      | some v => merge_lists s.findings v
      | Option.none => s.findings
    total_risk_score := match u.total_risk_score with
      | some v => take_max s.total_risk_score v
      | Option.none => s.total_risk_score
    highest_severity := match u.highest_severity with
      | some v => keep_first s.highest_severity v
      | Option.none => s.highest_severity
    summary := match u.summary with
      | some v => keep_first s.summary v
      | Option.none => s.summary
    root_cause := match u.root_cause with
      | some v => keep_first s.root_cause v
      | Option.none => s.root_cause
    recommended_actions := match u.recommended_actions with
      | some v => merge_lists s.recommended_actions v
      | Option.none => s.recommended_actions
    agents_to_run := match u.agents_to_run with
      | some v => merge_lists s.agents_to_run v
      | Option.none => s.agents_to_run
    agents_completed := match u.agents_completed with
      | some v => merge_lists s.agents_completed v
      | Option.none => s.agents_completed
    audit_log := match u.audit_log with
      | some v => merge_lists s.audit_log v
      | Option.none => s.audit_log
    start_time := match u.start_time with
      | some v => keep_first s.start_time (some v)
      | Option.none => s.start_time
    context := match u.context with
      | some v => merge_dicts s.context v
      | Option.none => s.context }

/-! ### Dispatcher (src/graph/workflow.py, run_expert_agents)

`AGENT_REGISTRY` maps checker names to checker functions; the dispatcher is
parametric in the registry, so the theorems quantify over every possible
registry contents (the six shipped checkers included).  A checker that
raises is modelled as returning `Except.error`. -/

/-- The partial update `{findings, audit_log, agents_completed}` a checker
returns and the dispatcher accumulates. -/
structure AgentResult where
  findings : List Finding := []
  audit_log : List AuditEntry := []
  agents_completed : List String := []
deriving DecidableEq, Repr

/-- The synthetic audit-log entry the dispatcher appends when a checker
raises: `{"step": "Agent Error", "agent": name, "error": str(e)}`. -/
def agent_error_entry (name e : String) : AuditEntry :=
  [("step", PyVal.str "Agent Error"), ("agent", PyVal.str name),
   ("error", PyVal.str e)]

/-- The dispatcher loop: look each name up in the registry (missing names
contribute nothing), call the checker on the unchanged state, extend the
accumulators with its results, or append a synthetic error entry when it
raises. -/
def run_agents_list (registry : String → Option (WorkflowState → Except String AgentResult))
    (state : WorkflowState) : List String → AgentResult
  | [] => {}
  | name :: rest =>
    let c : AgentResult :=
      match registry name with
      | Option.none => {}
      | some agent_fn =>
        match agent_fn state with
        | .ok result => result
        | .error e => { audit_log := [agent_error_entry name e] }
    let r := run_agents_list registry state rest
    { findings := c.findings ++ r.findings
      audit_log := c.audit_log ++ r.audit_log
      agents_completed := c.agents_completed ++ r.agents_completed }

/-- `run_expert_agents`: run the checkers named in `state.agents_to_run`. -/
def run_expert_agents (registry : String → Option (WorkflowState → Except String AgentResult))
    (state : WorkflowState) : AgentResult :=
  run_agents_list registry state state.agents_to_run

/-! ### Router (src/agents/supervisor.py, src/models/events.py)

The supervisor reads the event's domain, event type and severity through the
`get_event_*` helpers (strings), parses them into the `Domain` / `Severity`
enums with `except ValueError` fallbacks, accumulates checker names from the
condition groups, force-appends the security pair on High/Critical, falls
back to the default triad when empty, and deduplicates preserving the first
occurrence of each name. -/

/-- The `Domain` enum. -/
inductive Domain where
  | security
  | compliance
  | financial
  | infrastructure
  | unknown
deriving DecidableEq, Repr

/-- The `Severity` enum. -/
inductive Severity where
  | low
  | medium
  | high
  | critical
deriving DecidableEq, Repr

/-- The enum's `.value` string. -/
def Domain.value : Domain → String
  | .security => "Security"
  | .compliance => "Compliance"
  | .financial => "Financial"
  | .infrastructure => "Infrastructure"
  | .unknown => "Unknown"

/-- The enum's `.value` string. -/
def Severity.value : Severity → String
  | .low => "Low"
  | .medium => "Medium"
  | .high => "High"
  | .critical => "Critical"

/-- `Domain(domain_str) if domain_str else Domain.INFRASTRUCTURE`, with the
`ValueError` of an unrecognized value caught and mapped to INFRASTRUCTURE. -/
def parse_domain (s : String) : Domain :=
  if s = "" then Domain.infrastructure
  else if s = "Security" then Domain.security
  else if s = "Compliance" then Domain.compliance
  else if s = "Financial" then Domain.financial
  else if s = "Infrastructure" then Domain.infrastructure
  else if s = "Unknown" then Domain.unknown
  else Domain.infrastructure

/-- `Severity(severity_str) if severity_str else Severity.MEDIUM`, with the
`ValueError` of an unrecognized value caught and mapped to MEDIUM. -/
def parse_severity (s : String) : Severity :=
  if s = "" then Severity.medium
  else if s = "Low" then Severity.low
  else if s = "Medium" then Severity.medium
  else if s = "High" then Severity.high
  else if s = "Critical" then Severity.critical
  else Severity.medium

/-- Does the first character list start with the second? -/
def chStarts : List Char → List Char → Bool
  | _, [] => true
  | [], _ :: _ => false
  | a :: hs, b :: ns => a == b && chStarts hs ns

/-- Does the first character list contain the second as a contiguous run? -/
def chHas : List Char → List Char → Bool
  | [], needle => needle.isEmpty
  | a :: hs, needle => chStarts (a :: hs) needle || chHas hs needle

/-- Python `needle in hay` on strings: contiguous substring test. -/
def pyIn (needle hay : String) : Bool := chHas hay.toList needle.toList

/-- `any(kw in event_type for kw in kws)`. -/
def anyKw (kws : List String) (event_type : String) : Bool :=
  kws.any (fun kw => pyIn kw event_type)

/-- The dedup loop `[x for x in l if not (x in seen or seen.add(x))]`,
keeping the first occurrence of each element. -/
def dedupSeen (seen : List String) : List String → List String
  | [] => []
  | x :: xs =>
    if x ∈ seen then dedupSeen seen xs
    else x :: dedupSeen (x :: seen) xs

/-- Order-preserving deduplication, first occurrence kept. -/
def pyDedup (l : List String) : List String := dedupSeen [] l

/-- The checker-name accumulation of `supervisor_agent` before the final
dedup: the four condition groups in order, the High/Critical force-appends,
then the default-triad fallback. -/
def routeAcc (domain_str event_type_raw severity_str : String) : List String :=
  let event_type := event_type_raw.toLower
  let domain := parse_domain domain_str
  let severity := parse_severity severity_str
  let a1 := if domain = Domain.security
      || anyKw ["access", "auth", "login", "security", "ssh", "permission"] event_type then
      ["security_watchdog", "compliance_sentinel"]
    else []
  let a2 := if domain = Domain.financial
      || anyKw ["financial", "cost", "billing", "payment", "reconciliation"] event_type then
      ["cost_analyst", "compliance_sentinel"]
    else []
  let a3 := if domain = Domain.infrastructure
      || anyKw ["metric", "system", "cpu", "memory", "disk", "health", "scaling", "resource"]
          event_type then
      ["infrastructure_monitor", "resource_watcher", "anomaly_detector"]
    else []
  let a4 := if anyKw ["cost", "scale", "autoscal"] event_type then
      ["cost_analyst", "infrastructure_monitor"]
    else []
  let acc := a1 ++ a2 ++ a3 ++ a4
  let acc := if severity = Severity.high ∨ severity = Severity.critical then
      (if "security_watchdog" ∈ acc then acc else acc ++ ["security_watchdog"])
    else acc
  let acc := if severity = Severity.high ∨ severity = Severity.critical then
      (if "compliance_sentinel" ∈ acc then acc else acc ++ ["compliance_sentinel"])
    else acc
  if acc = [] then ["security_watchdog", "compliance_sentinel", "anomaly_detector"] else acc

/-- The router's final checker-name list: the accumulation, deduplicated
preserving first-seen order. -/
def route (domain_str event_type_raw severity_str : String) : List String :=
  pyDedup (routeAcc domain_str event_type_raw severity_str)

/-- `supervisor_agent`: the partial update it returns (no event → only
`agents_completed`; otherwise the routed list, one audit entry, and
`agents_completed`).  `tstart`/`tnow` stand for the two `time.time()`
reads. -/
def supervisor_agent (event : Option Event) (tstart tnow : ℚ) : StateUpdate :=
  match event with
  | Option.none => { agents_completed := some ["supervisor"] }
  | some ev =>
    let agents := route ev.domain ev.event_type ev.severity
    { agents_to_run := some agents
      audit_log := some
        [[("step", PyVal.str "Routing"), ("agent", PyVal.str "supervisor"),
          ("timestamp", PyVal.rat tnow),
          ("duration_ms", PyVal.rat (pyRound2 ((tnow - tstart) * 1000))),
          ("domain", PyVal.str (parse_domain ev.domain).value),
          ("severity", PyVal.str (parse_severity ev.severity).value),
          ("routed_to", PyVal.strlist agents),
          ("message", PyVal.str ("Routed to " ++ toString agents.length ++ " agents: "
            ++ String.intercalate ", " agents))]]
      agents_completed := some ["supervisor"] }

/-! ### Insight synthesizer (src/agents/insight.py)

`insight_synthesizer_agent` dispatches on the severity string: Low/Medium
takes the rule-based `generate_contextual_summary` path with no external
call; High/Critical assembles context and calls the language model.  The
High/Critical branch (context assembly, LLM call, guardrails) is out of the
fast path and is abstracted as an arbitrary function parameter `llmBranch`,
so the fast-path theorems hold whatever that branch does.  A Python value
that may be a string or `None` (e.g. `root_cause`) is a `PyVal`. -/

/-- Python `v == 0` for the payload values compared in the source
(`0 == 0.0 == False` in Python). -/
def pyEqZero : PyVal → Bool
  | .int n => n == 0
  | .rat q => q == 0
  | .bool b => !b
  | _ => false

/-- Python `v == s` between a payload value and a string literal. -/
def pvEqStr : PyVal → String → Bool
  | .str a, b => a == b
  | _, _ => false

/-- The `{summary, root_cause, actions, llm_used}` dict returned by
`generate_contextual_summary`. -/
structure SummaryResult where
  summary : String
  root_cause : PyVal
  actions : List String
  llm_used : Bool
deriving DecidableEq, Repr

/-- `generate_contextual_summary`: the rule-based analysis keyed on event
type, with the generic severity-tiered fallback.  Apostrophes from the
source's f-strings are written `\x27`. -/
def generate_contextual_summary (event : Event) (findings : List Finding) : SummaryResult :=
  let severity := event.severity
  let event_type := event.event_type
  let source := event.source_system
  let payload := event.payload
  if event_type = "PullRequestMerged" then
    if pyEqZero (pyGet payload "reviewers_approved" (PyVal.int 0)) then
      { summary := "Compliance Sentinel detected policy violation because PR #"
          ++ pvStr (pyGet payload "pr_number" PyVal.none)
          ++ " was merged without required code review in "
          ++ pvStr (pyGet payload "repository" (PyVal.str "unknown repo")) ++ "."
        root_cause := PyVal.str ("PR #" ++ pvStr (pyGet payload "pr_number" PyVal.none)
          ++ " was merged by " ++ pvStr (pyGet payload "username" (PyVal.str "unknown"))
          ++ " using admin bypass.")
        actions := ["Review merge justification", "Audit changes for security issues",
          "Remind team about review policy"]
        llm_used := false }
    else
      { summary := "Standard pull request merged in "
          ++ pvStr (pyGet payload "repository" (PyVal.str "repository")) ++ " with "
          ++ pvStr (pyGet payload "reviewers_approved" (PyVal.int 0)) ++ " approvals."
        root_cause := PyVal.none
        actions := ["No action required - normal workflow"]
        llm_used := false }
  else if event_type = "SecretDetected" then
    { summary := "Security Watchdog detected credential exposure because sensitive credential ("
        ++ pvStr (pyGet payload "secret_type" (PyVal.str "unknown type"))
        ++ ") was found in repository "
        ++ pvStr (pyGet payload "repository" (PyVal.str "unknown")) ++ "."
      root_cause := PyVal.str ("Secret committed in file "
        ++ pvStr (pyGet payload "file_path" (PyVal.str "unknown")) ++ " by "
        ++ pvStr (pyGet payload "username" (PyVal.str "unknown")) ++ ".")
      actions := ["Revoke exposed credential immediately", "Rotate affected secrets",
        "Scan for unauthorized access", "Add pre-commit hooks"]
      llm_used := false }
  else if event_type = "DeploymentFailed" then
    let env := pyGet payload "environment" (PyVal.str "unknown")
    { summary := "Deployment to " ++ pvStr env ++ " failed for project "
        ++ pvStr (pyGet payload "project" (PyVal.str "unknown")) ++ "."
      root_cause := pyGet payload "error_message"
        (PyVal.str "Build or deployment configuration error")
      actions := if pvEqStr env "production" then
          ["Investigate build logs", "Consider rollback if needed", "Notify on-call engineer"]
        else ["Review build logs", "Fix failing step", "Re-trigger deployment"]
      llm_used := false }
  else if event_type = "DeploymentSuccess" then
    { summary := "Successful deployment to "
        ++ pvStr (pyGet payload "environment" (PyVal.str "unknown")) ++ " for "
        ++ pvStr (pyGet payload "project" (PyVal.str "unknown")) ++ "."
      root_cause := PyVal.none
      actions := ["No action required - deployment successful"]
      llm_used := false }
  else if event_type = "WorkflowViolation" then
    { summary := "Workflow policy violation detected: "
        ++ pvStr (pyGet payload "violation_type" (PyVal.str "status mismatch")) ++ "."
      root_cause := PyVal.str ("Ticket "
        ++ pvStr (pyGet payload "ticket_id" (PyVal.str "unknown")) ++ " is in \x27"
        ++ pvStr (pyGet payload "current_status" PyVal.none) ++ "\x27 but expected \x27"
        ++ pvStr (pyGet payload "expected_status" PyVal.none) ++ "\x27.")
      actions := ["Update ticket status", "Review linked PR", "Sync project board"]
      llm_used := false }
  else if event_type = "PipelineFailed" then
    { summary := "CI/CD pipeline failed for "
        ++ pvStr (pyGet payload "repository" (PyVal.str "unknown")) ++ ": "
        ++ pvStr (pyGet payload "failure_reason" (PyVal.str "unknown error")) ++ "."
      root_cause := pyGet payload "failure_reason" PyVal.none
      actions := ["Review pipeline logs", "Fix failing tests/builds", "Re-run pipeline"]
      llm_used := false }
  else if event_type = "PipelineCompleted" then
    { summary := "CI/CD pipeline completed successfully for "
        ++ pvStr (pyGet payload "repository" (PyVal.str "unknown")) ++ " with "
        ++ pvStr (pyGet payload "tests_passed" (PyVal.int 0)) ++ " tests passing."
      root_cause := PyVal.none
      actions := ["No action required"]
      llm_used := false }
  else if event_type = "ForcePushAttempt" then
    { summary := "Force push attempt blocked on protected branch \x27"
        ++ pvStr (pyGet payload "branch" (PyVal.str "main")) ++ "\x27."
      root_cause := PyVal.str ("User "
        ++ pvStr (pyGet payload "username" (PyVal.str "unknown"))
        ++ " attempted to force push to protected branch.")
      actions := ["Review user intent", "Document incident", "Verify branch protection settings"]
      llm_used := false }
  else if event_type = "TicketUpdated" then
    { summary := "Ticket " ++ pvStr (pyGet payload "ticket_id" (PyVal.str "unknown"))
        ++ " status changed from \x27" ++ pvStr (pyGet payload "old_status" PyVal.none)
        ++ "\x27 to \x27" ++ pvStr (pyGet payload "new_status" PyVal.none) ++ "\x27."
      root_cause := PyVal.none
      actions := ["No action required - normal workflow"]
      llm_used := false }
  else
    let pair :=
      match findings with
      | top :: _ =>
        (severity ++ " severity " ++ event_type ++ " event: "
            ++ top.title.getD "Issue detected" ++ ". "
            ++ toString findings.length ++ " finding(s) identified.",
          match top.description with
          | some d => PyVal.str d
          | Option.none => PyVal.none)
      | [] =>
        (severity ++ " " ++ event_type ++ " event from " ++ source
            ++ ". No critical findings identified.",
          PyVal.none)
    { summary := pair.1
      root_cause := pair.2
      actions :=
        if severity = "Critical" then
          ["Immediate investigation required", "Escalate to security team",
           "Document incident timeline"]
        else if severity = "High" then
          ["Review within 1 hour", "Assess business impact", "Document findings"]
        else if severity = "Medium" then
          ["Add to review queue", "Discuss in next standup"]
        else ["Log for audit purposes"]
      llm_used := false }

/-- The partial update `insight_synthesizer_agent` returns. -/
structure InsightOutput where
  summary : String
  root_cause : PyVal
  recommended_actions : List String
  audit_log : List AuditEntry
  agents_completed : List String
  context : List (String × PyVal)
deriving DecidableEq, Repr

/-- `insight_synthesizer_agent`: Low/Medium severity takes the rule-based
fast path (no external call, `llm_used: False` in the audit entry);
everything else runs the LLM branch, abstracted here as the `llmBranch`
parameter. -/
def insight_synthesizer (llmBranch : Event → List Finding → InsightOutput)
    (event : Event) (findings : List Finding) (tstart tnow : ℚ) : InsightOutput :=
  if event.severity ∈ ["Low", "Medium"] then
    let result := generate_contextual_summary event findings
    { summary := result.summary
      root_cause := result.root_cause
      recommended_actions := result.actions
      audit_log := [[("step", PyVal.str "Insight Synthesis"),
        ("agent", PyVal.str "insight_synthesizer"),
        ("timestamp", PyVal.rat tnow),
        ("duration_ms", PyVal.rat (pyRound2 ((tnow - tstart) * 1000))),
        ("llm_used", PyVal.bool false),
        ("mode", PyVal.str "rule_based"),
        ("message", PyVal.str ("Rule-based analysis for " ++ event.severity ++ " severity"))]]
      agents_completed := ["insight_synthesizer"]
      context := [("llm_context_score", PyVal.int 0),
        ("guardrails_applied", PyVal.bool false)] }
  else llmBranch event findings

/-! ### Lemmas about the audit risk computation -/

lemma pyIndex_ok_of_mem (l : List String) (x : String) (h : x ∈ l) :
    ∃ i, pyIndex l x = .ok i := by
  induction l with
  | nil => cases h
  | cons a as ih =>
    by_cases hax : a = x
    · exact ⟨0, by simp [pyIndex, hax]⟩
    · have hx : x ∈ as := by
        cases h with
        | head => exact absurd rfl hax
        | tail _ h2 => exact h2
      obtain ⟨i, hi⟩ := ih hx
      exact ⟨i + 1, by simp [pyIndex, hax, hi, Except.map]⟩

lemma auditRiskLoop_ok (fs : List Finding) :
    ∀ (total : ℚ) (hs : String),
      (∀ f ∈ fs, f.severity.getD "Low" ∈ severity_order) → hs ∈ severity_order →
      ∃ hs2, auditRiskLoop fs total hs
          = .ok (fs.foldl (fun t f => max t (findingRisk f)) total, hs2)
        ∧ hs2 ∈ severity_order := by
  induction fs with
  | nil => exact fun total hs _ hhs => ⟨hs, rfl, hhs⟩
  | cons f fs ih =>
    intro total hs hall hhs
    have hsev : f.severity.getD "Low" ∈ severity_order :=
      hall f (List.mem_cons_self f fs)
    obtain ⟨i, hi⟩ := pyIndex_ok_of_mem _ _ hsev
    obtain ⟨j, hj⟩ := pyIndex_ok_of_mem _ _ hhs
    have hnext : (if j < i then f.severity.getD "Low" else hs) ∈ severity_order := by
      by_cases hji : j < i
      · simpa [hji] using hsev
      · simpa [hji] using hhs
    obtain ⟨hs2, hloop, hmem⟩ :=
      ih (max total (findingRisk f)) (if j < i then f.severity.getD "Low" else hs)
        (fun g hg => hall g (List.mem_cons_of_mem f hg)) hnext
    refine ⟨hs2, ?_, hmem⟩
    rw [auditRiskLoop, hi, hj]
    simpa [findingRisk] using hloop

lemma specMaxRisk_nonneg (fs : List Finding) : 0 ≤ specMaxRisk fs := by
  unfold specMaxRisk
  induction fs with
  | nil => simp
  | cons f fs ih => simpa using Or.inr ih

lemma foldl_max_risk (fs : List Finding) :
    ∀ (a : ℚ), 0 ≤ a →
      fs.foldl (fun t f => max t (findingRisk f)) a = max a (specMaxRisk fs) := by
  induction fs with
  | nil => intro a ha; simp [specMaxRisk, ha]
  | cons f fs ih =>
    intro a ha
    have h1 : 0 ≤ max a (findingRisk f) := le_trans ha (le_max_left _ _)
    have h2 : specMaxRisk (f :: fs) = max (findingRisk f) (specMaxRisk fs) := rfl
    rw [List.foldl_cons, ih (max a (findingRisk f)) h1, h2, max_assoc]

lemma roundHalfEven_nonneg (q : ℚ) (h : 0 ≤ q) : 0 ≤ roundHalfEven q := by
  have hf : (0 : ℤ) ≤ ⌊q⌋ := Int.floor_nonneg.mpr h
  simp only [roundHalfEven]
  split
  · exact hf
  · split
    · omega
    · split
      · exact hf
      · omega

lemma roundHalfEven_le (q : ℚ) (N : ℤ) (h : q ≤ (N : ℚ)) : roundHalfEven q ≤ N := by
  have hf : ⌊q⌋ ≤ N := by
    calc ⌊q⌋ ≤ ⌊(N : ℚ)⌋ := Int.floor_le_floor h
    _ = N := Int.floor_intCast N
  have hfl : (⌊q⌋ : ℚ) ≤ q := Int.floor_le q
  simp only [roundHalfEven]
  split
  · exact hf
  · rename_i hlt
    push_neg at hlt
    have hstrict : (⌊q⌋ : ℚ) < (N : ℚ) := by
      have : (⌊q⌋ : ℚ) + 1/2 ≤ q := by linarith
      linarith
    have : ⌊q⌋ < N := by exact_mod_cast hstrict
    split
    · omega
    · split
      · exact hf
      · omega

lemma pyRound2_mem_unit (q : ℚ) (h0 : 0 ≤ q) (h1 : q ≤ 1) :
    0 ≤ pyRound2 q ∧ pyRound2 q ≤ 1 := by
  have ha : 0 ≤ q * 100 := by positivity
  have hb : q * 100 ≤ ((100 : ℤ) : ℚ) := by push_cast; linarith
  have hl : (0 : ℤ) ≤ roundHalfEven (q * 100) := roundHalfEven_nonneg _ ha
  have hu : roundHalfEven (q * 100) ≤ 100 := roundHalfEven_le _ 100 hb
  constructor
  · unfold pyRound2
    have : (0 : ℚ) ≤ (roundHalfEven (q * 100) : ℚ) := by exact_mod_cast hl
    positivity
  · unfold pyRound2
    have : (roundHalfEven (q * 100) : ℚ) ≤ 100 := by exact_mod_cast hu
    linarith

lemma pyRound2_zero : pyRound2 0 = 0 := by
  have h : ⌊(0 : ℚ) * 100⌋ = 0 := by norm_num
  simp only [pyRound2, roundHalfEven, h]
  norm_num

/-- Core evaluation of the audit coordinator's risk score: when every
finding's severity is a recognized one, the result is
`round(min(1.0, max risk), 2)` together with some highest severity. -/
lemma audit_risk_eval (findings : List Finding)
    (h : ∀ f ∈ findings, f.severity.getD "Low" ∈ severity_order) :
    ∃ hs, audit_coordinator_risk findings
        = .ok (pyRound2 (min 1 (specMaxRisk findings)), hs) := by
  have hlow : "Low" ∈ severity_order := by simp [severity_order]
  obtain ⟨hs2, hloop, _⟩ := auditRiskLoop_ok findings 0 "Low" h hlow
  refine ⟨hs2, ?_⟩
  unfold audit_coordinator_risk
  rw [hloop, foldl_max_risk findings 0 le_rfl,
    max_eq_right (specMaxRisk_nonneg findings)]
  rfl

/-- C1 (amended): for every findings list whose severities are all recognized
ones, the audit finalizer's total_risk_score equals
`round(min(1.0, max over findings of severity_weight[f.severity] *
f.confidence), 2)` — the maximum, clamped and rounded to two decimals — is
`0.0` when the findings list is empty, and lies in `[0, 1]`. -/
theorem audit_total_risk_spec (findings : List Finding)
    (h : ∀ f ∈ findings, f.severity.getD "Low" ∈ severity_order) :
    (audit_coordinator_risk findings).map Prod.fst
        = .ok (pyRound2 (min 1 (specMaxRisk findings)))
      ∧ (findings = [] → (audit_coordinator_risk findings).map Prod.fst = .ok 0)
      ∧ (∃ r hs, audit_coordinator_risk findings = .ok (r, hs) ∧ 0 ≤ r ∧ r ≤ 1) := by
  obtain ⟨hs, heq⟩ := audit_risk_eval findings h
  have hmin0 : 0 ≤ min 1 (specMaxRisk findings) :=
    le_min (by norm_num) (specMaxRisk_nonneg findings)
  have hmin1 : min 1 (specMaxRisk findings) ≤ 1 := min_le_left _ _
  obtain ⟨hb0, hb1⟩ := pyRound2_mem_unit _ hmin0 hmin1
  refine ⟨by rw [heq]; rfl, ?_, ⟨_, hs, heq, hb0, hb1⟩⟩
  intro hempty
  subst hempty
  rw [heq]
  have hspec : specMaxRisk [] = 0 := rfl
  rw [hspec, min_eq_right (by norm_num : (0:ℚ) ≤ 1), pyRound2_zero]
  rfl

/-- C1 witness: the amended statement at a concrete findings list (one High
finding with confidence 0.77). -/
theorem audit_total_risk_spec_witness :
    (audit_coordinator_risk [{ severity := some "High", confidence := some (77/100) }]).map Prod.fst
        = .ok (pyRound2 (min 1 (specMaxRisk [{ severity := some "High", confidence := some (77/100) }])))
      ∧ ([({ severity := some "High", confidence := some (77/100) } : Finding)] = ([] : List Finding) →
          (audit_coordinator_risk [{ severity := some "High", confidence := some (77/100) }]).map Prod.fst = .ok 0)
      ∧ (∃ r hs, audit_coordinator_risk [{ severity := some "High", confidence := some (77/100) }]
          = .ok (r, hs) ∧ 0 ≤ r ∧ r ≤ 1) :=
  audit_total_risk_spec [{ severity := some "High", confidence := some (77/100) }]
    (by intro f hf; simp at hf; subst hf; simp [severity_order])

/-- C1 counterexample: the claim as frozen says the returned score *equals*
the maximum `severity_weight * confidence`; on one High finding with
confidence 0.77 the code returns 0.62 while the maximum is
0.8 * 0.77 = 0.616. -/
theorem audit_total_risk_counterexample :
    (audit_coordinator_risk [{ severity := some "High", confidence := some (77/100) }]).map Prod.fst
        = .ok (62/100)
      ∧ specMaxRisk [{ severity := some "High", confidence := some (77/100) }] = 4/5 * (77/100)
      ∧ ((62 : ℚ)/100) ≠ 4/5 * (77/100) := by
  refine ⟨?_, ?_, by norm_num⟩
  case refine_2 =>
    have hspec : specMaxRisk [{ severity := some "High", confidence := some (77/100) }]
        = max (4/5 * (77/100)) 0 := rfl
    rw [hspec, max_eq_left (by norm_num)]
  have h1 : auditRiskLoop [{ severity := some "High", confidence := some (77/100) }] 0 "Low"
      = .ok ((0:ℚ) ⊔ (4/5 * (77/100)), "High") := rfl
  unfold audit_coordinator_risk
  rw [h1]
  have h2 : (1:ℚ) ⊓ ((0:ℚ) ⊔ (4/5 * (77/100))) = 308/500 := by
    rw [max_eq_right (by norm_num), min_eq_right (by norm_num)]
    norm_num
  simp only [Except.map, h2]
  have h3 : ⌊(308:ℚ)/500 * 100⌋ = 61 := by norm_num
  simp only [pyRound2, roundHalfEven, h3]
  norm_num

/-- C10: the audit finalizer does clamp at 1.0 and round to two decimals, but
a finding whose severity is not one of Low/Medium/High/Critical does not
merely contribute weight 0.2: after taking its weight the code calls
`severity_order.index(severity)`, which raises `ValueError`, so nothing is
returned at all.  Evaluated at the failing input
`[{"severity": "Informational", "confidence": 1.0}]`. -/
theorem audit_risk_unknown_severity_raises :
    audit_coordinator_risk [{ severity := some "Informational", confidence := some 1 }]
        = .error "ValueError: Informational is not in list"
      ∧ findingRisk { severity := some "Informational", confidence := some 1 } = 1/5 * 1 :=
  ⟨rfl, rfl⟩

/-! ### Workflow state machine theorems -/

/-- C3: on any workflow whose current step exists and whose required action
differs from the supplied one, `advance_workflow` returns the record
unchanged without error, and stays unchanged under any number of
repetitions. -/
theorem advance_mismatch_noop (r : WorkflowRecord) (action : String)
    (actor : Option String) (now : Nat) (h1 : r.current_step < r.steps.length)
    (h2 : (r.steps.get ⟨r.current_step, h1⟩).required_action ≠ action) :
    advance_workflow r action actor now = .ok r
      ∧ ∀ n, advance_repeat n r action actor now = .ok r := by
  have hget : r.steps.get? r.current_step = some (r.steps.get ⟨r.current_step, h1⟩) :=
    List.get?_eq_get h1
  have hone : advance_workflow r action actor now = .ok r := by
    unfold advance_workflow
    rw [hget]
    exact if_pos h2
  refine ⟨hone, ?_⟩
  intro n
  induction n with
  | zero => rfl
  | succ n ih =>
    show (advance_workflow r action actor now).bind
      (fun r2 => advance_repeat n r2 action actor now) = .ok r
    rw [hone]
    exact ih

/-- C3 witness: a fresh change_approval workflow advanced with the wrong
action "wrong_action" is returned unchanged, arbitrarily often. -/
theorem advance_mismatch_noop_witness :
    advance_workflow
        { workflow_id := "wf-w3", workflow_type := "change_approval",
          correlation_id := "c3", status := WorkflowStatus.pending,
          created_at := 0, updated_at := 0, steps := change_approval_steps }
        "wrong_action" (some "bob") 9 = .ok
        { workflow_id := "wf-w3", workflow_type := "change_approval",
          correlation_id := "c3", status := WorkflowStatus.pending,
          created_at := 0, updated_at := 0, steps := change_approval_steps }
      ∧ ∀ n, advance_repeat n
        { workflow_id := "wf-w3", workflow_type := "change_approval",
          correlation_id := "c3", status := WorkflowStatus.pending,
          created_at := 0, updated_at := 0, steps := change_approval_steps }
        "wrong_action" (some "bob") 9 = .ok
        { workflow_id := "wf-w3", workflow_type := "change_approval",
          correlation_id := "c3", status := WorkflowStatus.pending,
          created_at := 0, updated_at := 0, steps := change_approval_steps } :=
  advance_mismatch_noop
    { workflow_id := "wf-w3", workflow_type := "change_approval",
      correlation_id := "c3", status := WorkflowStatus.pending,
      created_at := 0, updated_at := 0, steps := change_approval_steps }
    "wrong_action" (some "bob") 9 (by decide) (by decide)

/-- C2: on an action match, `advance_workflow` stamps the current step with
the completion timestamp and actor, increments the step index, and recomputes
the status (completed past the last step, in_progress when the next step is
auto, awaiting_approval otherwise); and the concrete change_approval
scenario: fresh → advance "submit" → (step 1, in_progress) → advance
"assess" → (step 2, awaiting_approval). -/
theorem advance_match_spec :
    (∀ (r : WorkflowRecord) (action : String) (actor : Option String) (now : Nat)
        (h1 : r.current_step < r.steps.length),
        (r.steps.get ⟨r.current_step, h1⟩).required_action = action →
        ∃ r2, advance_workflow r action actor now = .ok r2
          ∧ r2.current_step = r.current_step + 1
          ∧ r2.steps.get? r.current_step
              = some { r.steps.get ⟨r.current_step, h1⟩ with
                        completed_at := some now, completed_by := actor }
          ∧ r2.updated_at = now
          ∧ r2.status =
              (if h3 : r.current_step + 1 < r.steps.length then
                (if (r.steps.get ⟨r.current_step + 1, h3⟩).auto then
                  WorkflowStatus.in_progress else WorkflowStatus.awaiting_approval)
              else WorkflowStatus.completed))
    ∧ (create_workflow "change_approval" "corr-1" (some "alice") Option.none 0 "wf-1").map
        (fun r => (r.current_step, r.status)) = .ok (0, WorkflowStatus.pending)
    ∧ ((create_workflow "change_approval" "corr-1" (some "alice") Option.none 0 "wf-1").bind
        (fun r => advance_workflow r "submit" (some "system") 1)).map
          (fun r => (r.current_step, r.status)) = .ok (1, WorkflowStatus.in_progress)
    ∧ ((create_workflow "change_approval" "corr-1" (some "alice") Option.none 0 "wf-1").bind
        (fun r => (advance_workflow r "submit" (some "system") 1).bind
          (fun r2 => advance_workflow r2 "assess" (some "x") 2))).map
          (fun r => (r.current_step, r.status)) = .ok (2, WorkflowStatus.awaiting_approval) := by
  refine ⟨?_, rfl, rfl, rfl⟩
  intro r action actor now h1 h2
  have hget : r.steps.get? r.current_step = some (r.steps.get ⟨r.current_step, h1⟩) :=
    List.get?_eq_get h1
  unfold advance_workflow
  rw [hget]
  simp only [h2, ne_eq, not_true_eq_false, if_false, ite_false]
  refine ⟨_, rfl, rfl, ?_, rfl, ?_⟩
  · exact List.get?_set_eq_of_lt _ h1
  · simp only [List.length_set]
    by_cases h3 : r.current_step + 1 < r.steps.length
    · rw [dif_pos h3, if_neg (by omega)]
      rw [List.get?_set_ne _ _ (by omega), List.get?_eq_get h3]
    · rw [dif_neg h3, if_pos (by omega)]

/-- C2 witness: the matching-advance property at a fresh change_approval
workflow with action "submit". -/
theorem advance_match_spec_witness :
    ∃ r2, advance_workflow
        { workflow_id := "wf-w2", workflow_type := "change_approval",
          correlation_id := "c2", status := WorkflowStatus.pending,
          created_at := 0, updated_at := 0, steps := change_approval_steps }
        "submit" (some "system") 5 = .ok r2
      ∧ r2.current_step = 0 + 1
      ∧ r2.steps.get? 0 =
          some { name := "request_submitted", required_action := "submit",
                 auto := true, condition := Option.none, completed_at := some 5,
                 completed_by := some "system" }
      ∧ r2.updated_at = 5
      ∧ r2.status =
          (if h3 : 0 + 1 < change_approval_steps.length then
            (if (change_approval_steps.get ⟨0 + 1, h3⟩).auto then
              WorkflowStatus.in_progress else WorkflowStatus.awaiting_approval)
          else WorkflowStatus.completed) :=
  advance_match_spec.1
    { workflow_id := "wf-w2", workflow_type := "change_approval",
      correlation_id := "c2", status := WorkflowStatus.pending,
      created_at := 0, updated_at := 0, steps := change_approval_steps }
    "submit" (some "system") 5 (by decide) (by decide)

/-- C4: the claim says advancing a completed workflow is a no-op; in the code
`steps[record.current_step]` is read before any terminal check, so a
completed change_approval workflow (current_step = 6 past its 6 steps,
reached by the six matching advances below) raises IndexError on any further
advance instead. -/
theorem advance_completed_raises :
    ((create_workflow "change_approval" "corr-1" (some "alice") Option.none 0 "wf-1").bind
        (fun r => (advance_workflow r "submit" (some "system") 1).bind
          (fun r1 => (advance_workflow r1 "assess" (some "a") 2).bind
            (fun r2 => (advance_workflow r2 "approve" (some "m") 3).bind
              (fun r3 => (advance_workflow r3 "review" (some "c") 4).bind
                (fun r4 => (advance_workflow r4 "implement" (some "i") 5).bind
                  (fun r5 => advance_workflow r5 "verify" (some "v") 6))))))).map
        (fun r => (r.current_step, r.status)) = .ok (6, WorkflowStatus.completed)
    ∧ ∀ (action : String) (actor : Option String) (now : Nat),
        ((create_workflow "change_approval" "corr-1" (some "alice") Option.none 0 "wf-1").bind
          (fun r => (advance_workflow r "submit" (some "system") 1).bind
            (fun r1 => (advance_workflow r1 "assess" (some "a") 2).bind
              (fun r2 => (advance_workflow r2 "approve" (some "m") 3).bind
                (fun r3 => (advance_workflow r3 "review" (some "c") 4).bind
                  (fun r4 => (advance_workflow r4 "implement" (some "i") 5).bind
                    (fun r5 => advance_workflow r5 "verify" (some "v") 6))))))).bind
          (fun rc => advance_workflow rc action actor now)
          = .error "IndexError: list index out of range" :=
  ⟨rfl, fun _ _ _ => rfl⟩

/-- C6: `create_workflow` fails exactly on workflow types outside the
template table, and on a registered type returns a fresh record at status
pending, step 0, with a snapshot of the template's step list. -/
theorem create_workflow_spec :
    (∀ (t cid : String) (rid : Option String) (md : Option (List (String × PyVal)))
        (now : Nat) (wid : String),
        (∃ e, create_workflow t cid rid md now wid = .error e)
          ↔ t ∉ ["change_approval", "access_review", "incident_response"])
    ∧ (∀ (t cid : String) (rid : Option String) (md : Option (List (String × PyVal)))
        (now : Nat) (wid : String) (tmpl : WorkflowTemplate),
        WORKFLOW_TEMPLATES t = some tmpl →
        create_workflow t cid rid md now wid = .ok
          { workflow_id := wid, workflow_type := t, correlation_id := cid,
            status := WorkflowStatus.pending, created_at := now, updated_at := now,
            requester_id := rid, approver_id := Option.none, current_step := 0,
            steps := tmpl.steps, metadata := md.getD [] }) := by
  constructor
  · intro t cid rid md now wid
    unfold create_workflow WORKFLOW_TEMPLATES
    by_cases h1 : t = "change_approval"
    · simp [h1]
    · by_cases h2 : t = "access_review"
      · simp [h1, h2]
      · by_cases h3 : t = "incident_response"
        · simp [h1, h2, h3]
        · simp [h1, h2, h3]
  · intro t cid rid md now wid tmpl htmpl
    unfold create_workflow
    rw [htmpl]

/-! ### Merge and dispatcher theorems -/

lemma pyOrZero_eq (x : ℚ) : pyOrZero x = x := by
  unfold pyOrZero
  split <;> simp_all

lemma pyOrList_eq (l : List α) : (if l.isEmpty then [] else l) = l := by
  cases l <;> simp

lemma merge_lists_eq (l r : List α) : merge_lists l r = l ++ r := by
  unfold merge_lists
  rw [pyOrList_eq, pyOrList_eq]

/-- C9: every merge of a partial update into the pipeline state leaves
total_risk_score ≥ its previous value and leaves the previous findings and
audit_log lists as prefixes of the new ones. -/
theorem merge_state_monotone (s : WorkflowState) (u : StateUpdate) :
    s.total_risk_score ≤ (mergeState s u).total_risk_score
      ∧ (∃ t, (mergeState s u).findings = s.findings ++ t)
      ∧ (∃ t, (mergeState s u).audit_log = s.audit_log ++ t) := by
  refine ⟨?_, ?_, ?_⟩
  · cases hu : u.total_risk_score with
    | none => simp [mergeState, hu]
    | some v =>
      simp only [mergeState, hu]
      unfold take_max
      rw [pyOrZero_eq]
      exact le_max_left _ _
  · cases hu : u.findings with
    | none => exact ⟨[], by simp [mergeState, hu]⟩
    | some v => exact ⟨v, by simp [mergeState, hu, merge_lists_eq]⟩
  · cases hu : u.audit_log with
    | none => exact ⟨[], by simp [mergeState, hu]⟩
    | some v => exact ⟨v, by simp [mergeState, hu, merge_lists_eq]⟩

/-- C5: the dispatcher is resilient — with `agents_to_run = [X, Y]` where X
raises and Y succeeds, the run still returns Y's findings plus the synthetic
error entry for X followed by Y's audit entries; and any name missing from
the registry contributes nothing. -/
theorem run_expert_agents_resilient :
    (∀ (registry : String → Option (WorkflowState → Except String AgentResult))
        (state : WorkflowState) (X Y : String)
        (fX gY : WorkflowState → Except String AgentResult) (e : String) (rY : AgentResult),
        state.agents_to_run = [X, Y] →
        registry X = some fX → fX state = .error e →
        registry Y = some gY → gY state = .ok rY →
        run_expert_agents registry state =
          { findings := rY.findings,
            audit_log := agent_error_entry X e :: rY.audit_log,
            agents_completed := rY.agents_completed })
    ∧ (∀ (registry : String → Option (WorkflowState → Except String AgentResult))
        (state : WorkflowState) (name : String) (rest : List String),
        registry name = Option.none →
        run_agents_list registry state (name :: rest)
          = run_agents_list registry state rest) := by
  constructor
  · intro registry state X Y fX gY e rY hrun hX hfX hY hgY
    unfold run_expert_agents
    rw [hrun]
    show run_agents_list registry state [X, Y] = _
    rw [run_agents_list, hX, run_agents_list, hY, run_agents_list]
    simp [hfX, hgY]
  · intro registry state name rest hname
    rw [run_agents_list, hname]
    simp

/-- C5 witness: a concrete registry where checker "chk_x" always raises
"boom" and checker "chk_y" returns one finding and one audit entry. -/
theorem run_expert_agents_resilient_witness :
    run_expert_agents
      (fun n =>
        if n = "chk_x" then some (fun _ => .error "boom")
        else if n = "chk_y" then
          some (fun _ => .ok { findings := [{ severity := some "Low", confidence := some 1 }],
                               audit_log := [[("step", PyVal.str "Y Check"),
                                              ("agent", PyVal.str "chk_y")]],
                               agents_completed := ["chk_y"] })
        else Option.none)
      { agents_to_run := ["chk_x", "chk_y"] } =
    { findings := [{ severity := some "Low", confidence := some 1 }],
      audit_log := agent_error_entry "chk_x" "boom"
        :: [[("step", PyVal.str "Y Check"), ("agent", PyVal.str "chk_y")]],
      agents_completed := ["chk_y"] } :=
  run_expert_agents_resilient.1
    (fun n =>
      if n = "chk_x" then some (fun _ => .error "boom")
      else if n = "chk_y" then
        some (fun _ => .ok { findings := [{ severity := some "Low", confidence := some 1 }],
                             audit_log := [[("step", PyVal.str "Y Check"),
                                            ("agent", PyVal.str "chk_y")]],
                             agents_completed := ["chk_y"] })
      else Option.none)
    { agents_to_run := ["chk_x", "chk_y"] } "chk_x" "chk_y"
    (fun _ => .error "boom")
    (fun _ => .ok { findings := [{ severity := some "Low", confidence := some 1 }],
                    audit_log := [[("step", PyVal.str "Y Check"),
                                   ("agent", PyVal.str "chk_y")]],
                    agents_completed := ["chk_y"] })
    "boom"
    { findings := [{ severity := some "Low", confidence := some 1 }],
      audit_log := [[("step", PyVal.str "Y Check"), ("agent", PyVal.str "chk_y")]],
      agents_completed := ["chk_y"] }
    rfl rfl rfl rfl rfl

/-- C6 witness: creating a change_approval workflow returns the pending
record at step 0 with the template's step list. -/
theorem create_workflow_spec_witness :
    create_workflow "change_approval" "corr-9" Option.none Option.none 7 "wf-9" = .ok
      { workflow_id := "wf-9", workflow_type := "change_approval", correlation_id := "corr-9",
        status := WorkflowStatus.pending, created_at := 7, updated_at := 7,
        requester_id := Option.none, approver_id := Option.none, current_step := 0,
        steps := change_approval_steps, metadata := [] } :=
  create_workflow_spec.2 "change_approval" "corr-9" Option.none Option.none 7 "wf-9"
    { steps := change_approval_steps, timeout_hours := 72, escalation_hours := 24 } rfl

/-! ### Router theorems -/

lemma dedupSeen_sublist (l : List String) : ∀ seen, (dedupSeen seen l).Sublist l := by
  induction l with
  | nil => intro seen; exact List.Sublist.refl []
  | cons x xs ih =>
    intro seen
    rw [dedupSeen]
    by_cases hx : x ∈ seen
    · rw [if_pos hx]; exact (ih seen).cons x
    · rw [if_neg hx]; exact (ih (x :: seen)).cons₂ x

lemma mem_dedupSeen (l : List String) :
    ∀ seen y, y ∈ dedupSeen seen l ↔ (y ∈ l ∧ y ∉ seen) := by
  induction l with
  | nil => intro seen y; simp [dedupSeen]
  | cons x xs ih =>
    intro seen y
    rw [dedupSeen]
    by_cases hx : x ∈ seen
    · rw [if_pos hx, ih seen y]
      constructor
      · rintro ⟨h1, h2⟩
        exact ⟨List.mem_cons_of_mem _ h1, h2⟩
      · rintro ⟨h1, h2⟩
        rcases List.mem_cons.mp h1 with rfl | h1
        · exact absurd hx h2
        · exact ⟨h1, h2⟩
    · rw [if_neg hx]
      by_cases hxy : y = x
      · subst hxy
        simp [List.mem_cons, hx]
      · simp only [List.mem_cons, hxy, false_or, ih (x :: seen) y]

lemma dedupSeen_nodup (l : List String) : ∀ seen, (dedupSeen seen l).Nodup := by
  induction l with
  | nil => intro seen; simp [dedupSeen]
  | cons x xs ih =>
    intro seen
    rw [dedupSeen]
    by_cases hx : x ∈ seen
    · rw [if_pos hx]; exact ih seen
    · rw [if_neg hx]
      refine List.nodup_cons.mpr ⟨?_, ih (x :: seen)⟩
      intro hmem
      exact ((mem_dedupSeen xs (x :: seen) x).mp hmem).2 (List.mem_cons_self x seen)

lemma dedupSeen_congr (l : List String) :
    ∀ seen seen', (∀ y, y ∈ seen ↔ y ∈ seen') →
      dedupSeen seen l = dedupSeen seen' l := by
  induction l with
  | nil => intro seen seen' h; rfl
  | cons x xs ih =>
    intro seen seen' h
    rw [dedupSeen, dedupSeen]
    by_cases hx : x ∈ seen
    · rw [if_pos hx, if_pos ((h x).mp hx)]
      exact ih seen seen' h
    · rw [if_neg hx, if_neg (fun hc => hx ((h x).mpr hc))]
      refine congrArg (x :: ·) (ih (x :: seen) (x :: seen') ?_)
      intro y
      simp only [List.mem_cons, h y]

lemma dedupSeen_filter (l : List String) :
    ∀ (s : String) (seen : List String),
      dedupSeen (s :: seen) l = dedupSeen seen (l.filter (fun y => y != s)) := by
  induction l with
  | nil => intro s seen; rfl
  | cons a xs ih =>
    intro s seen
    by_cases has : a = s
    · subst has
      rw [dedupSeen, if_pos (List.mem_cons_self a seen)]
      have hf : (a :: xs).filter (fun y => y != a) = xs.filter (fun y => y != a) := by
        simp [List.filter_cons]
      rw [hf]
      exact ih a seen
    · have hf : (a :: xs).filter (fun y => y != s) = a :: xs.filter (fun y => y != s) := by
        simp [List.filter_cons, has]
      rw [hf, dedupSeen, dedupSeen]
      by_cases hseen : a ∈ seen
      · rw [if_pos (List.mem_cons_of_mem _ hseen), if_pos hseen]
        exact ih s seen
      · have hns : a ∉ s :: seen := by
          intro hc
          rcases List.mem_cons.mp hc with h | h
          · exact has h
          · exact hseen h
        rw [if_neg hns, if_neg hseen]
        refine congrArg (a :: ·) ?_
        calc dedupSeen (a :: s :: seen) xs
            = dedupSeen (s :: a :: seen) xs := by
              refine dedupSeen_congr xs _ _ ?_
              intro y
              simp only [List.mem_cons]
              tauto
          _ = dedupSeen (a :: seen) (xs.filter (fun y => y != s)) := ih s (a :: seen)

lemma fallback_ne_nil (l : List String) :
    (if l = [] then ["security_watchdog", "compliance_sentinel", "anomaly_detector"] else l)
      ≠ [] := by
  by_cases h : l = [] <;> simp [h]

lemma routeAcc_ne_nil (d e s : String) : routeAcc d e s ≠ [] := fallback_ne_nil _

lemma pyDedup_cons (x : String) (xs : List String) :
    pyDedup (x :: xs) = x :: pyDedup (xs.filter (fun y => y != x)) := by
  show dedupSeen [] (x :: xs) = _
  rw [dedupSeen, if_neg (List.not_mem_nil x)]
  exact congrArg (x :: ·) (dedupSeen_filter xs x [])

lemma pyDedup_ne_nil (l : List String) (h : l ≠ []) : pyDedup l ≠ [] := by
  cases l with
  | nil => exact absurd rfl h
  | cons x xs => rw [pyDedup_cons]; simp

/-- C8: for every event (any domain, event-type and severity strings), the
router's checker-name list is non-empty, duplicate-free, a sublist of the
pre-dedup accumulation with exactly its members (so insertion order is
preserved and only later duplicates are dropped); `pyDedup` keeps the first
occurrence of each name; and `supervisor_agent` publishes exactly this list
as `agents_to_run`. -/
theorem route_spec :
    (∀ d e s : String,
        route d e s ≠ []
          ∧ (route d e s).Nodup
          ∧ (route d e s).Sublist (routeAcc d e s)
          ∧ (∀ x, x ∈ route d e s ↔ x ∈ routeAcc d e s))
      ∧ (∀ (x : String) (xs : List String),
          pyDedup (x :: xs) = x :: pyDedup (xs.filter (fun y => y != x)))
      ∧ (∀ (ev : Event) (t1 t2 : ℚ),
          (supervisor_agent (some ev) t1 t2).agents_to_run
            = some (route ev.domain ev.event_type ev.severity)) := by
  refine ⟨?_, pyDedup_cons, fun ev t1 t2 => rfl⟩
  intro d e s
  refine ⟨pyDedup_ne_nil _ (routeAcc_ne_nil d e s), dedupSeen_nodup _ [],
    dedupSeen_sublist _ [], ?_⟩
  intro x
  rw [show route d e s = dedupSeen [] (routeAcc d e s) from rfl, mem_dedupSeen]
  simp

/-! ### Insight synthesizer theorems -/

lemma gcs_llm_used_false (ev : Event) (fs : List Finding) :
    (generate_contextual_summary ev fs).llm_used = false := by
  simp [generate_contextual_summary, apply_ite (SummaryResult.llm_used)]

/-- C7: for every event whose severity is Low or Medium, the synthesizer
takes the rule-based path: its result is independent of whatever the
High/Critical LLM branch would do (no external call), its single audit entry
reports `llm_used: False`, and the rule-based summary itself carries
`llm_used = False`. -/
theorem insight_fast_path (b1 b2 : Event → List Finding → InsightOutput)
    (ev : Event) (fs : List Finding) (t1 t2 : ℚ)
    (h : ev.severity ∈ ["Low", "Medium"]) :
    insight_synthesizer b1 ev fs t1 t2 = insight_synthesizer b2 ev fs t1 t2
      ∧ (∃ entry, (insight_synthesizer b1 ev fs t1 t2).audit_log = [entry]
          ∧ entry.lookup "llm_used" = some (PyVal.bool false))
      ∧ (generate_contextual_summary ev fs).llm_used = false := by
  unfold insight_synthesizer
  rw [if_pos h, if_pos h]
  exact ⟨rfl, ⟨_, rfl, rfl⟩, gcs_llm_used_false ev fs⟩

/-- C7 witness: a Low-severity TicketUpdated event, with two different
stand-ins for the LLM branch. -/
theorem insight_fast_path_witness :
    insight_synthesizer (fun _ _ => { summary := "llm-one", root_cause := PyVal.none, recommended_actions := [], audit_log := [], agents_completed := [], context := [] }) { event_type := "TicketUpdated", source_system := "jira", severity := "Low", domain := "Unknown", payload := [] } [] 0 0
      = insight_synthesizer (fun _ _ => { summary := "llm-two", root_cause := PyVal.none, recommended_actions := [], audit_log := [], agents_completed := [], context := [] }) { event_type := "TicketUpdated", source_system := "jira", severity := "Low", domain := "Unknown", payload := [] } [] 0 0
      ∧ (∃ entry,
          (insight_synthesizer (fun _ _ => { summary := "llm-one", root_cause := PyVal.none, recommended_actions := [], audit_log := [], agents_completed := [], context := [] }) { event_type := "TicketUpdated", source_system := "jira", severity := "Low", domain := "Unknown", payload := [] } [] 0 0).audit_log = [entry]
            ∧ entry.lookup "llm_used" = some (PyVal.bool false))
      ∧ (generate_contextual_summary { event_type := "TicketUpdated", source_system := "jira", severity := "Low", domain := "Unknown", payload := [] } []).llm_used = false :=
  insight_fast_path (fun _ _ => { summary := "llm-one", root_cause := PyVal.none, recommended_actions := [], audit_log := [], agents_completed := [], context := [] }) (fun _ _ => { summary := "llm-two", root_cause := PyVal.none, recommended_actions := [], audit_log := [], agents_completed := [], context := [] }) { event_type := "TicketUpdated", source_system := "jira", severity := "Low", domain := "Unknown", payload := [] } [] 0 0 (by decide)

end Orbitr
